import Mathlib

/-!
Verification of the CinemaOS ComfyUI node layer: a shallow embedding of
`credit_tracker.py`, `fal_provider.py`, `vertex_provider.py`,
`vault_context.py` and `vault_save.py`.

Python floats are modelled as rationals (ℚ).  Network calls are modelled
by an oracle value describing the outcome of the call (an HTTP response
with a status code, or a raised `requests.RequestException`); the rest of
each function is translated line by line from the source.  The result of
Python's builtin `float(credits_used)` parse is likewise supplied as an
oracle (`Option ℚ`): `some c` when `float()` succeeds returning `c`,
`none` when it raises `ValueError`/`TypeError`.
-/

namespace CinemaOS

/-- Outcome of a `requests.post`/`requests.get` call, as seen by the
calling code: either a response with its HTTP status code, or a raised
`requests.RequestException`. -/
inductive HttpOutcome where
  | resp (status : Nat)
  | exn
deriving DecidableEq, Repr

/- ---------------------------------------------------------------------
   credit_tracker.py
--------------------------------------------------------------------- -/

/-- `try: credits = float(credits_used) except (ValueError, TypeError): credits = 0.0`
(credit_tracker.py lines 51-54).  The argument is the oracle result of
`float(credits_used)`. -/
def parseCredits (credits_used : Option ℚ) : ℚ :=
  credits_used.getD 0

/-- `CreditTrackerNode.track_credits` (credit_tracker.py lines 42-86),
with the class attribute `_session_credits` passed explicitly.  Returns
the new `_session_credits` value together with the `status` string the
node returns.  `report` is the oracle outcome of the
`requests.post(vault_url + "/api/credits/usage", ...)` call. -/
def track_credits (session_credits : ℚ) (credits_used : Option ℚ)
    (report : HttpOutcome) : ℚ × String :=
  let credits := parseCredits credits_used
  let new_session := session_credits + credits
  let status :=
    match report with
    | HttpOutcome.resp code => if code = 200 then "reported" else "local_only"
    | HttpOutcome.exn => "offline"
  (new_session, status)

/-- `CreditTrackerNode.reset_session_credits` (credit_tracker.py lines
88-91): `cls._session_credits = 0.0`. -/
def reset_session_credits : ℚ := 0

/-- One operation on the class-level accumulator `_session_credits`. -/
inductive CreditOp where
  | track (credits_used : Option ℚ) (report : HttpOutcome)
  | reset
deriving Repr

/-- Run a sequence of `track_credits` / `reset_session_credits` calls,
threading `_session_credits` through (it starts at `0.0`,
credit_tracker.py line 40). -/
def runCreditOps (session_credits : ℚ) : List CreditOp → ℚ
  | [] => session_credits
  | CreditOp.track c r :: ops =>
      runCreditOps (track_credits session_credits c r).1 ops
  | CreditOp.reset :: ops => runCreditOps reset_session_credits ops

/-- An op whose charge is non-negative (a `reset` always qualifies). -/
def creditOpNonneg : CreditOp → Prop
  | CreditOp.track c _ => 0 ≤ parseCredits c
  | CreditOp.reset => True

/- ---------------------------------------------------------------------
   fal_provider.py
--------------------------------------------------------------------- -/

/-- The `model_endpoints` dict lookup with default,
`model_endpoints.get(model, "fal-ai/flux/schnell")`
(fal_provider.py lines 56-64). -/
def fal_model_endpoint (model : String) : String :=
  if model = "flux-2-pro" then "fal-ai/flux-2/pro"
  else if model = "flux-1.1-pro" then "fal-ai/flux-pro/v1.1"
  else if model = "flux-schnell" then "fal-ai/flux/schnell"
  else if model = "kling-v2.5-turbo" then "fal-ai/kling-video/v2.5/turbo/image-to-video"
  else if model = "seedream-4.5" then "fal-ai/seedream/v4.5"
  else "fal-ai/flux/schnell"

/-- The model names that appear as keys of `model_endpoints` and of
`base_costs` in fal_provider.py (the two dicts have the same keys). -/
def fal_models : List String :=
  ["flux-2-pro", "flux-1.1-pro", "flux-schnell", "kling-v2.5-turbo", "seedream-4.5"]

/-- `base_costs.get(model, 0.01)` (fal_provider.py lines 119-126). -/
def fal_base_cost (model : String) : ℚ :=
  if model = "flux-2-pro" then 5/100
  else if model = "flux-1.1-pro" then 4/100
  else if model = "flux-schnell" then 3/1000
  else if model = "kling-v2.5-turbo" then 8/100
  else if model = "seedream-4.5" then 2/100
  else 1/100

/-- `FalProviderNode._estimate_credits` (fal_provider.py lines 117-130):
`base * (width*height) / (1024*1024)`. -/
def fal_estimate_credits (model : String) (width height : Nat) : ℚ :=
  let base := fal_base_cost model
  let pixels : ℚ := (width : ℚ) * (height : ℚ)
  let scale := pixels / (1024 * 1024)
  base * scale

/- ---------------------------------------------------------------------
   vertex_provider.py
--------------------------------------------------------------------- -/

/-- The model names that appear as keys of `costs` in
`VertexProviderNode._estimate_credits`. -/
def vertex_models : List String := ["imagen-4", "imagen-4-fast", "veo-3.1"]

/-- `VertexProviderNode._estimate_credits` (vertex_provider.py lines
137-144): `costs.get(model, 0.02)` — note `width` and `height` are
accepted but never used. -/
def vertex_estimate_credits (model : String) (width height : Nat) : ℚ :=
  if model = "imagen-4" then 4/100
  else if model = "imagen-4-fast" then 2/100
  else if model = "veo-3.1" then 50/100
  else 2/100

/-- What `VertexProviderNode.generate` (vertex_provider.py lines 65-72)
does after credential checks: dispatch on the model name. -/
inductive VertexDispatch where
  | imagen
  | veoNotImplementedError
  | unknownModelValueError
deriving DecidableEq, Repr

/-- Python's `s.startswith(pre)`, modelled on the character list of the
string. -/
def startswith (s pre : String) : Bool :=
  pre.data.isPrefixOf s.data

/-- The model-name branching of `VertexProviderNode.generate`
(vertex_provider.py lines 66-72): `model.startswith("imagen")` routes to
`_generate_imagen`; `model.startswith("veo")` routes to `_generate_veo`,
which raises `NotImplementedError` (line 121); anything else raises
`ValueError(f"Unknown model: ...")` (line 72). -/
def vertex_generate_dispatch (model : String) : VertexDispatch :=
  if startswith model "imagen" then VertexDispatch.imagen
  else if startswith model "veo" then VertexDispatch.veoNotImplementedError
  else VertexDispatch.unknownModelValueError

/- ---------------------------------------------------------------------
   vault_context.py
--------------------------------------------------------------------- -/

/-- The JSON token record returned by the Vault, restricted to the keys
`_build_prompt_context` / `load_context` read with `.get(key, "")`.
A missing key and an empty value are both represented by `""` (Python
reads them with `.get(k, "")` and then tests truthiness, so they are
indistinguishable).  Non-string JSON values such as `age: 30` are
represented by the string the f-string renders them to ("30").
`visuals` is the list of the `path` values of the visual records. -/
structure TokenData where
  name : String := ""
  description : String := ""
  age : String := ""
  appearance : String := ""
  clothing : String := ""
  setting : String := ""
  time_of_day : String := ""
  weather : String := ""
  material : String := ""
  color : String := ""
  style_prompt : String := ""
  visuals : List String := []
deriving Repr

/-- `VaultContextNode._build_prompt_context` (vault_context.py lines
76-133), translated branch by branch. -/
def build_prompt_context (token_type : String) (d : TokenData) : String :=
  if token_type = "character" then
    let parts := [d.name]
      ++ (if d.age ≠ "" then [d.age ++ " years old"] else [])
      ++ (if d.appearance ≠ "" then [d.appearance] else [])
      ++ (if d.clothing ≠ "" then ["wearing " ++ d.clothing] else [])
      ++ (if d.description ≠ "" then [d.description] else [])
    String.intercalate ", " parts
  else if token_type = "location" then
    let parts := [d.name]
      ++ (if d.setting ≠ "" then [d.setting] else [])
      ++ (if d.time_of_day ≠ "" then ["during " ++ d.time_of_day] else [])
      ++ (if d.weather ≠ "" then [d.weather ++ " weather"] else [])
      ++ (if d.description ≠ "" then [d.description] else [])
    String.intercalate ", " parts
  else if token_type = "prop" then
    let parts := [d.name]
      ++ (if d.color ≠ "" then [d.color] else [])
      ++ (if d.material ≠ "" then ["made of " ++ d.material] else [])
      ++ (if d.description ≠ "" then [d.description] else [])
    String.intercalate ", " parts
  else
    if d.description ≠ "" then d.name ++ ", " ++ d.description else d.name

/-- Outcome of the Vault `requests.get` in `load_context`: a response
with status code and (when read) parsed JSON body, or a raised
`requests.RequestException`. -/
inductive FetchOutcome where
  | resp (status : Nat) (token_data : TokenData)
  | exn
deriving Repr

/-- `VaultContextNode.load_context` (vault_context.py lines 35-74).
`vault` is the oracle outcome of the
`requests.get(vault_url + "/api/tokens/...", timeout=5)` call. -/
def load_context (token_type token_name : String) (include_visuals : Bool)
    (vault : FetchOutcome) : String × String × String :=
  if token_name = "" then ("", "", "")
  else
    match vault with
    | FetchOutcome.resp status token_data =>
        if status ≠ 200 then ("", "", "")
        else
          let prompt_context := build_prompt_context token_type token_data
          let style_prompt := token_data.style_prompt
          let reference_path :=
            match include_visuals, token_data.visuals with
            | true, p :: _ => p
            | _, _ => ""
          (prompt_context, style_prompt, reference_path)
    | FetchOutcome.exn => ("", "", "")

/- Spec-side rendering, for comparison with `build_prompt_context`. -/

/-- Modelled from the spec: the type-specific ordered list of optional
attribute fragments ("later fragments", §4.5) for a token, as
(attribute value, rendered fragment) pairs. -/
def spec_fragment_pairs (token_type : String) (d : TokenData) : List (String × String) :=
  if token_type = "character" then
    [(d.age, d.age ++ " years old"), (d.appearance, d.appearance),
     (d.clothing, "wearing " ++ d.clothing), (d.description, d.description)]
  else if token_type = "location" then
    [(d.setting, d.setting), (d.time_of_day, "during " ++ d.time_of_day),
     (d.weather, d.weather ++ " weather"), (d.description, d.description)]
  else if token_type = "prop" then
    [(d.color, d.color), (d.material, "made of " ++ d.material),
     (d.description, d.description)]
  else
    [(d.description, d.description)]

/-- Modelled from the spec (§4.5): keep each later fragment only if its
attribute is present and non-empty, put the name first, and join the
fragments with ", ". -/
def spec_render (token_type : String) (d : TokenData) : String :=
  String.intercalate ", "
    (d.name :: ((spec_fragment_pairs token_type d).filter
      (fun p => decide (p.1 ≠ ""))).map Prod.snd)

/- ---------------------------------------------------------------------
   vault_save.py
--------------------------------------------------------------------- -/

/-- Outcome of the `requests.post(vault_url + "/api/assets/upload", ...)`
call in `save_to_vault`: a response with its status and (when parsed) the
optional `"id"` field of its JSON body, or a raised
`requests.RequestException`. -/
inductive UploadOutcome where
  | resp (status : Nat) (json_id : Option String)
  | exn
deriving Repr

/-- The filename computation of `save_to_vault` (vault_save.py line 56):
`f"{token_type}_{token_name}_{asset_id}.png" if token_name else f"output_{asset_id}.png"`. -/
def vault_filename (token_type token_name asset_id : String) : String :=
  if token_name ≠ "" then token_type ++ "_" ++ token_name ++ "_" ++ asset_id ++ ".png"
  else "output_" ++ asset_id ++ ".png"

/-- The local fallback path of `save_to_vault` (vault_save.py line 89):
`os.path.join(os.path.expanduser("~"), "CinemaOS", "outputs", filename)`,
with the expansion of `~` supplied as `home`. -/
def local_fallback_path (home token_type token_name asset_id : String) : String :=
  home ++ "/CinemaOS/outputs/" ++ vault_filename token_type token_name asset_id

/-- `VaultSaveNode.save_to_vault` (vault_save.py lines 42-93).  The image
tensor is abstract (`α`); `asset_id` is the random
`str(uuid.uuid4())[:8]` suffix; `upload` is the oracle outcome of the
upload POST.  Returns the node's `(saved_id, image)` pair together with
the path of the local file written by the fallback
(`os.makedirs(...); pil_image.save(local_path)`), or `none` when the
function writes no local file. -/
def save_to_vault {α : Type} (image : α) (token_type token_name : String)
    (asset_id home : String) (upload : UploadOutcome) :
    String × α × Option String :=
  match upload with
  | UploadOutcome.resp status json_id =>
      if status = 200 then (json_id.getD asset_id, image, none)
      else ("local:" ++ asset_id, image, none)
  | UploadOutcome.exn =>
      ("local:" ++ asset_id, image,
        some (local_fallback_path home token_type token_name asset_id))

/- ---------------------------------------------------------------------
   Theorems
--------------------------------------------------------------------- -/

/-- C1: for every prior session total `t`, when `float(credits_used)`
succeeds with a non-negative value `c` the session total after
`track_credits` is `t + c`, and when the parse raises
`ValueError`/`TypeError` the session total is unchanged (the charge
contributes exactly 0 and the call never raises during parsing, being
total). -/
theorem track_credits_parse_defensive (t : ℚ) (r : HttpOutcome) :
    (∀ c : ℚ, 0 ≤ c → (track_credits t (some c) r).1 = t + c) ∧
    (track_credits t none r).1 = t := by
  refine ⟨fun c _ => rfl, ?_⟩
  simp [track_credits, parseCredits]

/-- Witness for C1 at `t = 2`, `c = 3`, outcome = exception. -/
theorem track_credits_parse_defensive_witness :
    (0 : ℚ) ≤ 3 ∧
    (track_credits 2 (some 3) HttpOutcome.exn).1 = 2 + 3 ∧
    (track_credits 2 none HttpOutcome.exn).1 = 2 :=
  ⟨by norm_num,
   (track_credits_parse_defensive 2 HttpOutcome.exn).1 3 (by norm_num),
   (track_credits_parse_defensive 2 HttpOutcome.exn).2⟩

/-- C4: `track_credits` returns status `"reported"` exactly when the
accounting POST returned HTTP 200, `"local_only"` exactly when it
returned any other status, `"offline"` when the request raised; the
status is always one of these three; and in every case the session total
is incremented by the parsed credits (a reporting failure never loses the
local accounting and never aborts the call). -/
theorem track_credits_status_taxonomy (t : ℚ) (p : Option ℚ) (s : Nat) :
    ((track_credits t p (HttpOutcome.resp s)).2 = "reported" ↔ s = 200) ∧
    ((track_credits t p (HttpOutcome.resp s)).2 = "local_only" ↔ s ≠ 200) ∧
    (track_credits t p HttpOutcome.exn).2 = "offline" ∧
    (∀ r : HttpOutcome,
      (track_credits t p r).2 = "reported" ∨
      (track_credits t p r).2 = "local_only" ∨
      (track_credits t p r).2 = "offline") ∧
    (∀ r : HttpOutcome, (track_credits t p r).1 = t + parseCredits p) := by
  refine ⟨?_, ?_, rfl, ?_, fun r => by cases r <;> rfl⟩
  · by_cases h : s = 200 <;> simp [track_credits, h]
  · by_cases h : s = 200 <;> simp [track_credits, h]
  · intro r
    cases r with
    | resp code => by_cases h : code = 200 <;> simp [track_credits, h]
    | exn => exact Or.inr (Or.inr rfl)

/-- C5 counterexample: the claim says the session total stays `≥ 0` for
arbitrary input strings, but the code adds whatever `float()` returns:
starting from the initial total `0.0`, a single `track_credits` call
whose `credits_used` parses to `-1` (e.g. the input string `"-1"`)
leaves the session total at `-1 < 0`. -/
theorem session_credits_can_go_negative :
    runCreditOps 0 [CreditOp.track (some (-1)) HttpOutcome.exn] < 0 := by
  norm_num [runCreditOps, track_credits, parseCredits]

/-- C5 amended: starting from the initial value `0.0` (or any
non-negative total), after every sequence of `track_credits` calls whose
inputs each parse to a non-negative value or fail to parse (contributing
exactly 0) and `reset_session_credits` calls, the session total is
`≥ 0`. -/
theorem session_credits_nonneg (ops : List CreditOp)
    (hops : ∀ op ∈ ops, creditOpNonneg op) (t : ℚ) (ht : 0 ≤ t) :
    0 ≤ runCreditOps t ops := by
  induction ops generalizing t with
  | nil => exact ht
  | cons op rest ih =>
      have hop := hops op (List.mem_cons_self op rest)
      have hrest : ∀ o ∈ rest, creditOpNonneg o :=
        fun o ho => hops o (List.mem_cons_of_mem op ho)
      cases op with
      | track c r =>
          exact ih hrest _ (add_nonneg ht hop)
      | reset =>
          exact ih hrest _ le_rfl

/-- Witness for C5 amended: a concrete sequence of two parsing charges,
one unparsable charge and a reset, starting from 0. -/
theorem session_credits_nonneg_witness :
    0 ≤ runCreditOps 0
      [CreditOp.track (some (3/2)) (HttpOutcome.resp 200),
       CreditOp.track none HttpOutcome.exn,
       CreditOp.reset,
       CreditOp.track (some 2) (HttpOutcome.resp 500)] :=
  session_credits_nonneg _
    (by
      intro op hop
      simp only [List.mem_cons, List.not_mem_nil, or_false] at hop
      rcases hop with h | h | h | h <;> subst h <;>
        simp [creditOpNonneg, parseCredits] <;> norm_num)
    0 le_rfl

/-- The base cost used by `fal_estimate_credits` is never negative. -/
theorem fal_base_cost_nonneg (model : String) : 0 ≤ fal_base_cost model := by
  unfold fal_base_cost
  split_ifs <;> norm_num

/-- C6 counterexample: the Vertex adapter's `_estimate_credits` ignores
the resolution entirely, so at `model = "imagen-4"`, `width = height =
2048` the estimate is the flat base cost `0.04`, not the base cost
scaled by `(2048*2048)/(1024*1024) = 4` as the claim requires. -/
theorem vertex_estimate_not_resolution_scaled :
    ¬ (vertex_estimate_credits "imagen-4" 2048 2048 =
        (4/100 : ℚ) * ((2048 * 2048 : ℚ) / (1024 * 1024))) := by
  norm_num [vertex_estimate_credits]

/-- C6 amended: the Fal adapter's `_estimate_credits` equals the static
per-model base cost multiplied by `(width*height)/(1024*1024)` for every
mapped model and all resolutions, while the Vertex adapter's
`_estimate_credits` returns the static per-model base cost unchanged,
independent of `width` and `height`. -/
theorem estimate_credits_per_model (w h : Nat) :
    fal_estimate_credits "flux-2-pro" w h = (5/100) * ((w * h : ℚ) / (1024 * 1024)) ∧
    fal_estimate_credits "flux-1.1-pro" w h = (4/100) * ((w * h : ℚ) / (1024 * 1024)) ∧
    fal_estimate_credits "flux-schnell" w h = (3/1000) * ((w * h : ℚ) / (1024 * 1024)) ∧
    fal_estimate_credits "kling-v2.5-turbo" w h = (8/100) * ((w * h : ℚ) / (1024 * 1024)) ∧
    fal_estimate_credits "seedream-4.5" w h = (2/100) * ((w * h : ℚ) / (1024 * 1024)) ∧
    vertex_estimate_credits "imagen-4" w h = 4/100 ∧
    vertex_estimate_credits "imagen-4-fast" w h = 2/100 ∧
    vertex_estimate_credits "veo-3.1" w h = 50/100 ∧
    (∀ w2 h2 : Nat, ∀ model : String,
      vertex_estimate_credits model w h = vertex_estimate_credits model w2 h2) := by
  refine ⟨?_, ?_, ?_, ?_, ?_, rfl, rfl, rfl, fun w2 h2 model => rfl⟩ <;>
    simp [fal_estimate_credits, fal_base_cost] <;> push_cast <;> ring

/-- C7: for each adapter and every fixed model, `estimate_credits` is
monotonically non-decreasing in the pixel count `width*height`; and for
every model name outside the adapter's cost table the function uses the
fixed default base cost — `0.01` for Fal (scaled by pixel count, so the
value at the 1024×1024 reference is exactly `0.01`) and the flat `0.02`
for Vertex — rather than raising (both functions are total). -/
theorem estimate_credits_monotone_default (model : String) :
    (∀ w1 h1 w2 h2 : Nat, w1 * h1 ≤ w2 * h2 →
      fal_estimate_credits model w1 h1 ≤ fal_estimate_credits model w2 h2 ∧
      vertex_estimate_credits model w1 h1 ≤ vertex_estimate_credits model w2 h2) ∧
    (model ∉ fal_models →
      ∀ w h : Nat,
        fal_estimate_credits model w h = (1/100) * ((w * h : ℚ) / (1024 * 1024)) ∧
        fal_estimate_credits model 1024 1024 = 1/100) ∧
    (model ∉ vertex_models →
      ∀ w h : Nat, vertex_estimate_credits model w h = 2/100) := by
  refine ⟨?_, ?_, ?_⟩
  · intro w1 h1 w2 h2 hp
    constructor
    · have hbase := fal_base_cost_nonneg model
      have hpix : ((w1 : ℚ) * h1) ≤ (w2 : ℚ) * h2 := by exact_mod_cast hp
      show fal_base_cost model * ((w1 : ℚ) * h1 / (1024 * 1024)) ≤
        fal_base_cost model * ((w2 : ℚ) * h2 / (1024 * 1024))
      gcongr
    · exact le_of_eq rfl
  · intro hm w h
    simp only [fal_models, List.mem_cons, List.not_mem_nil, or_false,
      not_or] at hm
    obtain ⟨h1, h2, h3, h4, h5⟩ := hm
    have hbase : fal_base_cost model = 1/100 := by
      simp [fal_base_cost, h1, h2, h3, h4, h5]
    constructor
    · show fal_base_cost model * ((w : ℚ) * h / (1024 * 1024)) = _
      rw [hbase]
      try push_cast
      try ring
    · show fal_base_cost model * (((1024 : Nat) : ℚ) * ((1024 : Nat) : ℚ) / (1024 * 1024)) = _
      rw [hbase]
      norm_num
  · intro hm w h
    simp only [vertex_models, List.mem_cons, List.not_mem_nil, or_false,
      not_or] at hm
    obtain ⟨h1, h2, h3⟩ := hm
    simp [vertex_estimate_credits, h1, h2, h3]

/-- Witness for C7 at the unmapped model name `"unknown-model"` and the
pixel-count pair 512×512 ≤ 1024×1024. -/
theorem estimate_credits_monotone_default_witness :
    (fal_estimate_credits "unknown-model" 512 512 ≤
      fal_estimate_credits "unknown-model" 1024 1024 ∧
     vertex_estimate_credits "unknown-model" 512 512 ≤
      vertex_estimate_credits "unknown-model" 1024 1024) ∧
    fal_estimate_credits "unknown-model" 1024 1024 = 1/100 ∧
    vertex_estimate_credits "unknown-model" 2048 2048 = 2/100 := by
  obtain ⟨hmono, hfal, hver⟩ := estimate_credits_monotone_default "unknown-model"
  exact ⟨hmono 512 512 1024 1024 (by norm_num),
    (hfal (by decide) 1024 1024).2,
    hver (by decide) 2048 2048⟩

/-- C9 counterexample: for the Vertex adapter the claim fails — at the
unmapped model `"unknown-model-xyz"` `VertexProviderNode.generate` does
not fall back to a default endpoint but raises
`ValueError("Unknown model: ...")` (the `unknownModelValueError`
branch). -/
theorem vertex_unknown_model_raises :
    vertex_generate_dispatch "unknown-model-xyz" =
      VertexDispatch.unknownModelValueError := by
  decide

/-- C9 amended: the Fal adapter resolves every model name outside its
endpoint table to the default endpoint `"fal-ai/flux/schnell"` and
proceeds; the Vertex adapter instead routes only model names starting
with `"imagen"` (to Imagen) or `"veo"` (to `_generate_veo`, which raises
`NotImplementedError`) and raises `ValueError` for every other model
name. -/
theorem unmapped_model_dispatch (model : String)
    (hfal : model ∉ fal_models)
    (him : startswith model "imagen" = false)
    (hveo : startswith model "veo" = false) :
    fal_model_endpoint model = "fal-ai/flux/schnell" ∧
    vertex_generate_dispatch model = VertexDispatch.unknownModelValueError := by
  simp only [fal_models, List.mem_cons, List.not_mem_nil, or_false,
    not_or] at hfal
  obtain ⟨h1, h2, h3, h4, h5⟩ := hfal
  constructor
  · simp [fal_model_endpoint, h1, h2, h3, h4, h5]
  · simp [vertex_generate_dispatch, him, hveo]

/-- Witness for C9 amended at the model name `"unknown-model-xyz"`. -/
theorem unmapped_model_dispatch_witness :
    fal_model_endpoint "unknown-model-xyz" = "fal-ai/flux/schnell" ∧
    vertex_generate_dispatch "unknown-model-xyz" =
      VertexDispatch.unknownModelValueError :=
  unmapped_model_dispatch "unknown-model-xyz" (by decide) (by decide) (by decide)

/-- C2 counterexample: on an upload attempt that fails with a non-2xx
HTTP status (here 500), `save_to_vault` does return the
`"local:"`-prefixed id, but it writes no local file (third component
`none`): the asset bytes are written to the local directory only on the
network-error (`requests.RequestException`) path, not in both failure
shapes as the claim states. -/
theorem save_non2xx_writes_no_local_file :
    save_to_vault (0 : Nat) "shot" "scene1" "abcd1234" "/home/user"
      (UploadOutcome.resp 500 none) = ("local:abcd1234", 0, none) := by
  rfl

/-- C2 amended: if the store accepts the write with HTTP 200 and a JSON
`id`, `save_to_vault` returns the server-assigned id and writes no local
file; if the attempt comes back with any non-200 status, it returns the
`"local:"`-prefixed id but writes no local file; only if the request
raises a network error does it both return the `"local:"`-prefixed id
and write the asset to the deterministic directory
`~/CinemaOS/outputs/<filename>` under the user's home (the code creates
missing parent directories there with `os.makedirs(..., exist_ok=True)`
before writing). -/
theorem save_to_vault_outcomes {α : Type} (image : α)
    (token_type token_name asset_id home server_id : String)
    (s : Nat) (j : Option String) (hs : s ≠ 200) :
    save_to_vault image token_type token_name asset_id home
      (UploadOutcome.resp 200 (some server_id)) = (server_id, image, none) ∧
    save_to_vault image token_type token_name asset_id home
      (UploadOutcome.resp s j) = ("local:" ++ asset_id, image, none) ∧
    save_to_vault image token_type token_name asset_id home
      UploadOutcome.exn = ("local:" ++ asset_id, image,
        some (home ++ "/CinemaOS/outputs/" ++
          vault_filename token_type token_name asset_id)) := by
  refine ⟨rfl, ?_, rfl⟩
  simp [save_to_vault, hs]

/-- Witness for C2 amended at status 500. -/
theorem save_to_vault_outcomes_witness :
    save_to_vault (7 : Nat) "character" "Ana" "abcd1234" "/home/user"
      (UploadOutcome.resp 200 (some "srv-99")) = ("srv-99", 7, none) ∧
    save_to_vault (7 : Nat) "character" "Ana" "abcd1234" "/home/user"
      (UploadOutcome.resp 500 none) = ("local:abcd1234", 7, none) ∧
    save_to_vault (7 : Nat) "character" "Ana" "abcd1234" "/home/user"
      UploadOutcome.exn = ("local:abcd1234", 7,
        some ("/home/user" ++ "/CinemaOS/outputs/" ++
          vault_filename "character" "Ana" "abcd1234")) :=
  save_to_vault_outcomes 7 "character" "Ana" "abcd1234" "/home/user" "srv-99"
    500 none (by decide)

/-- C10: `save_to_vault` returns the input image unchanged as its second
output on every path — remote success, remote non-200 rejection, and
network-error local fallback alike. -/
theorem save_to_vault_image_passthrough {α : Type} (image : α)
    (token_type token_name asset_id home : String) (upload : UploadOutcome) :
    (save_to_vault image token_type token_name asset_id home upload).2.1 = image := by
  cases upload with
  | resp status json_id =>
      by_cases h : status = 200 <;> simp [save_to_vault, h]
  | exn => rfl

/-- C3: for every non-empty token name, `load_context` returns the same
empty triple `("", "", "")` both when the Vault responds with a non-200
status and when the request raises a network error: the two failure
causes are indistinguishable to the caller, and neither raises (the
function is total). -/
theorem load_context_failures_indistinguishable
    (token_type token_name : String) (include_visuals : Bool)
    (s : Nat) (d : TokenData)
    (hname : token_name ≠ "") (hs : s ≠ 200) :
    load_context token_type token_name include_visuals
      (FetchOutcome.resp s d) = ("", "", "") ∧
    load_context token_type token_name include_visuals
      FetchOutcome.exn = ("", "", "") := by
  constructor <;> simp [load_context, hname, hs]

/-- Witness for C3 at token `"character"/"Ana"` and status 404. -/
theorem load_context_failures_indistinguishable_witness :
    load_context "character" "Ana" true
      (FetchOutcome.resp 404 {}) = ("", "", "") ∧
    load_context "character" "Ana" true FetchOutcome.exn = ("", "", "") :=
  load_context_failures_indistinguishable "character" "Ana" true 404 {}
    (by decide) (by decide)

/-- C8: the character token with name `"Ana"`, age `30`, appearance
`"tall"` and clothing `"red coat"` renders to exactly
`"Ana, 30 years old, tall, wearing red coat"`; and in general, for every
token type, `_build_prompt_context` joins its fragments with `", "`,
puts the name first, and includes each later type-specific fragment
(age as `"<age> years old"`, appearance, clothing as
`"wearing <clothing>"`, description, and so on) exactly when its
attribute is present and non-empty — that is, it agrees with the
spec-side renderer `spec_render` on every token type and every token. -/
theorem build_prompt_context_spec :
    build_prompt_context "character"
      { name := "Ana", age := "30", appearance := "tall",
        clothing := "red coat" } = "Ana, 30 years old, tall, wearing red coat" ∧
    (∀ (token_type : String) (d : TokenData),
      build_prompt_context token_type d = spec_render token_type d) := by
  constructor
  · rfl
  · intro token_type d
    unfold build_prompt_context spec_render spec_fragment_pairs
    by_cases hc : token_type = "character"
    · simp only [hc, if_pos rfl]
      by_cases h1 : d.age = "" <;> by_cases h2 : d.appearance = "" <;>
        by_cases h3 : d.clothing = "" <;> by_cases h4 : d.description = "" <;>
        simp [h1, h2, h3, h4, String.intercalate, List.filter]
    · by_cases hl : token_type = "location"
      · simp only [hc, hl, if_neg, if_pos rfl]
        by_cases h1 : d.setting = "" <;> by_cases h2 : d.time_of_day = "" <;>
          by_cases h3 : d.weather = "" <;> by_cases h4 : d.description = "" <;>
          simp [hc, h1, h2, h3, h4, String.intercalate, List.filter]
      · by_cases hp : token_type = "prop"
        · simp only [hc, hl, hp, if_neg, if_pos rfl]
          by_cases h1 : d.color = "" <;> by_cases h2 : d.material = "" <;>
            by_cases h3 : d.description = "" <;>
            simp [hc, hl, h1, h2, h3, String.intercalate, List.filter]
        · by_cases h4 : d.description = "" <;>
            simp [hc, hl, hp, h4, String.intercalate, List.filter] <;> rfl

end CinemaOS
